import Mathlib

/-!
Shallow embedding of `run.py` (wbhi-smart-copy-gear): a gear that smart-copies
an acquisition to a per-PI project, waits for the asynchronous copy job, moves
the copied records out of the temporary staging project, waits for them to
become visible at the destination, renames the copied subject, and tags the
original acquisition.

The embedding models the pure control/data flow of the script.  External
catalog state (existing container paths, job statuses, per-record update
results, destination session listings) is passed in explicitly; `while True`
polling loops are embedded as fuel-indexed recursions whose fuel plays the
role of the wall-clock timeout, together with lemmas showing the fuel bound
is immaterial where the source loop provably exits.
-/

/-! ### Identity normalization (run.py lines 22-34 and 168-176)

Python's `str.casefold` and `str.isalnum` are modelled on the ASCII fragment:
`casefold` lower-cases every character, `isalnum` holds iff the string is
nonempty and every character is an ASCII letter or digit. -/

/-- ASCII model of the lower-casing performed by Python's `str.casefold`. -/
def asciiToLower (c : Char) : Char :=
  if 65 ≤ c.toNat ∧ c.toNat ≤ 90 then Char.ofNat (c.toNat + 32) else c

/-- ASCII model of Python's per-character alphanumeric test. -/
def asciiIsAlnum (c : Char) : Bool :=
  decide (65 ≤ c.toNat ∧ c.toNat ≤ 90) ||
  decide (97 ≤ c.toNat ∧ c.toNat ≤ 122) ||
  decide (48 ≤ c.toNat ∧ c.toNat ≤ 57)

/-- Model of Python `str.casefold` (run.py line 170). -/
def casefold (s : String) : String :=
  String.mk (s.data.map asciiToLower)

/-- Model of Python `str.isalnum` (run.py line 172): nonempty and all
alphanumeric. -/
def py_isalnum (s : String) : Bool :=
  !s.data.isEmpty && s.data.all asciiIsAlnum

/-- run.py lines 170-176: `pi_id = hdr_fields["pi_id"].casefold()`, then if it
is not alphanumeric, replace it with the sentinel `"other"`. -/
def normalize_pi (pi_raw : String) : String :=
  let c := casefold pi_raw
  if py_isalnum c then c else "other"

/-! ### Header parsing (run.py `get_hdr_fields`, lines 22-34) -/

/-- The parsed DICOM header values consumed by `get_hdr_fields`:
`AcquisitionDate`, numeric `AcquisitionTime`, and the two tokens returned by
the external `parse_dicom_hdr.parse_pi_sub`. -/
structure DcmHdr where
  acquisitionDate : String
  acquisitionTime : Nat
  pi_id : String
  sub_id : String
deriving DecidableEq, Repr

/-- Values stored in the `hdr_fields` dict built by `get_hdr_fields`. -/
inductive HdrVal
  | vStr (s : String)
  | vDate (d : String)
  | vBool (b : Bool)
deriving DecidableEq, Repr

/-- run.py lines 22-34: returns `None` unless the file carries the
`file-classifier` tag and a parsed header (modelled by `classified`);
otherwise builds the dict with keys `site`, `date`, `before_noon`, `pi_id`
and `sub-id` (note the hyphen), where `before_noon` is
`AcquisitionTime < 120000`. -/
def get_hdr_fields (classified : Bool) (d : DcmHdr) (site : String) :
    Option (List (String × HdrVal)) :=
  if classified then
    some [("site", .vStr site),
          ("date", .vDate d.acquisitionDate),
          ("before_noon", .vBool (decide (d.acquisitionTime < 120000))),
          ("pi_id", .vStr d.pi_id),
          ("sub-id", .vStr d.sub_id)]
  else
    none

/-! ### Destination-label resolution (run.py `smart_copy`, lines 55-64)

`smart_copy` loops: look the candidate path up; if a project exists there,
either delete it (`delete_existing_project=True`) or append `'_1'` to the
label, until the lookup fails.  The catalog is modelled as the list of
existing container paths/labels.  The two modes (the flag is constant inside
one call) are embedded as two fuel-indexed loops, with fuel large enough that
the bound never binds (proved below). -/

/-- Longest label length among the existing names: bounds the number of
suffix-appending iterations the `smart_copy` loop can take. -/
def labelsMaxLen (l : List String) : Nat :=
  l.foldr (fun s m => max s.length m) 0

/-- One run of the `smart_copy` label loop with `delete_existing_project`
false: while the label is taken, append `'_1'` (run.py line 62). -/
def resolveLabelGo : Nat → List String → String → String
  | 0, _, label => label
  | fuel + 1, existing, label =>
    if label ∈ existing then resolveLabelGo fuel existing (label ++ "_1")
    else label

/-- run.py lines 55-64 with `delete_existing_project=False`: the final
destination label after suffixing past every collision. -/
def resolveLabel (existing : List String) (label : String) : String :=
  resolveLabelGo (labelsMaxLen existing + 1) existing label

/-- One run of the `smart_copy` label loop with `delete_existing_project`
true: while the path is taken, delete the project there (run.py lines 59-60)
and retry the same label.  Returns the deleted paths and the remaining
catalog. -/
def resolveDeleteGo : Nat → List String → String → List String × List String
  | 0, existing, _ => ([], existing)
  | fuel + 1, existing, path =>
    if path ∈ existing then
      let rest := resolveDeleteGo fuel (existing.erase path) path
      (path :: rest.1, rest.2)
    else ([], existing)

/-- run.py lines 55-64 with `delete_existing_project=True`: deletes whatever
sits at the staging path, keeping the label unchanged. -/
def resolveDelete (existing : List String) (path : String) :
    List String × List String :=
  resolveDeleteGo (existing.length + 1) existing path

/-- `n` copies of the `'_1'` suffix, as prepended by successive collision
iterations. -/
def rep1 : Nat → String
  | 0 => ""
  | n + 1 => "_1" ++ rep1 n

/-! ### Copy-job polling (run.py lines 89-115) -/

/-- Status of the asynchronous smart-copy job (`dst_project.copy_status`). -/
inductive CopyStatus
  | completed
  | failed
  | running
deriving DecidableEq, Repr

/-- run.py lines 89-104 (`check_smartcopy_job_complete`): `completed` returns
`True`, `failed` raises `RuntimeError` (the `.error` case), anything else
returns `False`. -/
def check_smartcopy_job_complete (s : CopyStatus) : Except Unit Bool :=
  match s with
  | .completed => .ok true
  | .failed => .error ()
  | .running => .ok false

/-- How one polling loop run of `check_smartcopy_loop` ends. -/
inductive LoopOutcome
  | success
  | jobFailed
  | timeout
deriving DecidableEq, Repr

/-- run.py lines 106-115 (`check_smartcopy_loop`): sleep, check the job
status (raising on `failed`, returning on `completed`), then exit the
process when the timeout has elapsed.  `f` is the status observed at each
poll, `i` the current poll index, and `fuel` the number of polls allowed
before the `time.time() - start_time > WAIT_TIMEOUT` test trips. -/
def check_smartcopy_loop (f : Nat → CopyStatus) (i fuel : Nat) : LoopOutcome :=
  match check_smartcopy_job_complete (f i), fuel with
  | .error _, _ => .jobFailed
  | .ok true, _ => .success
  | .ok false, 0 => .timeout
  | .ok false, fuel' + 1 => check_smartcopy_loop f (i + 1) fuel'

/-! ### Moving staged records (run.py `mv_to_project`, lines 117-131) -/

/-- Result of one `acquisition.update(project=dst_project.id)` call, as seen
through `flywheel.ApiException`: success, or an API error with a status
code. -/
inductive UpdResult
  | ok
  | apiErr (status : Nat)
deriving DecidableEq, Repr

/-- What `mv_to_project` does with one acquisition. -/
inductive MvAction
  | moved
  | conflictSkipped
  | errorLogged
deriving DecidableEq, Repr

/-- run.py lines 121-131: the per-acquisition try/except body — a 422 is
logged as "already exists ... Skipping", any other `ApiException` is logged
with `log.exception`; either way the loop moves on. -/
def mv_acq (r : UpdResult) : MvAction :=
  match r with
  | .ok => .moved
  | .apiErr s => if s = 422 then .conflictSkipped else .errorLogged

/-- The inner `for acquisition in session.acquisitions.iter()` loop. -/
def mv_session : List UpdResult → List MvAction
  | [] => []
  | r :: rest => mv_acq r :: mv_session rest

/-- run.py lines 117-131 (`mv_to_project`): the outer loop over sessions of
the staging project; input is the update result for each acquisition of each
session. -/
def mv_to_project : List (List UpdResult) → List MvAction
  | [] => []
  | s :: rest => mv_session s ++ mv_to_project rest

/-! ### Reconciliation wait (run.py `check_copied_acq_exists`, lines 133-142) -/

/-- A session of the destination project as seen by the reconciliation scan:
whether `session.acquisitions.find_first('copy_of=<id>')` matches. -/
structure SessionRec where
  hasCopy : Bool
deriving DecidableEq, Repr

/-- How one pass of the `while True` body of `check_copied_acq_exists`
ends. -/
inductive ReconStep
  | found
  | exitTimeout
  | continueLoop
deriving DecidableEq, Repr

/-- run.py lines 135-142: one pass of the `while True` body — iterate the
destination sessions; on a `copy_of` match return the session, `elif` the
timeout has elapsed exit the process; if the session list is exhausted (in
particular if it is empty) fall through to the next `while` iteration. -/
def check_copied_body : List SessionRec → Bool → ReconStep
  | [], _ => .continueLoop
  | s :: rest, timedOut =>
    if s.hasCopy then .found
    else if timedOut then .exitTimeout
    else check_copied_body rest timedOut

/-- The `while True` loop of `check_copied_acq_exists` never exits: at every
iteration `n` (with session listing `sessionsAt n` and elapsed-timeout flag
`timedOutAt n`) the body falls through to the next iteration. -/
def recon_loop_runs_forever (sessionsAt : Nat → List SessionRec)
    (timedOutAt : Nat → Bool) : Prop :=
  ∀ n, check_copied_body (sessionsAt n) (timedOutAt n) = .continueLoop

/-- Overall outcome of `check_copied_acq_exists` against a static session
listing: a pre-timeout pass that finds the copy returns it; otherwise once
the timeout flag is up the body either exits the process or — when it can
never reach the timeout test — the loop hangs forever. -/
inductive ReconOutcome
  | found
  | exitTimeout
  | hangs
deriving DecidableEq, Repr

/-- Outcome of the reconciliation wait of run.py lines 133-142 for a static
destination listing. -/
def recon_outcome (sessions : List SessionRec) : ReconOutcome :=
  match check_copied_body sessions false with
  | .found => .found
  | _ =>
    match check_copied_body sessions true with
    | .found => .found
    | .exitTimeout => .exitTimeout
    | .continueLoop => .hangs

/-! ### Rename step (run.py lines 193-208) -/

/-- The Python exceptions the rename step can raise. -/
inductive PyErr
  | keyError (k : String)
  | nameError (v : String)
  | typeError
deriving DecidableEq, Repr

/-- Python dict subscript `fields[k]`: `KeyError` when absent. -/
def dictGet (fields : List (String × HdrVal)) (k : String) :
    Except PyErr HdrVal :=
  match fields.lookup k with
  | some v => .ok v
  | none => .error (.keyError k)

/-- run.py lines 197-207: build `new_sub_name_fields` by subscripting
`hdr_fields_first` with `'pi_id'`, `'sub_id'`, `'date'`, `'before_noon'`
(line 199 reads key `'sub_id'`), then line 205 evaluates
`len(new_sub_label)` where `new_sub_label` was never assigned (only
`new_sub_name` was), raising `NameError`. -/
def rename_step (fields : List (String × HdrVal)) : Except PyErr String := do
  let _pi ← dictGet fields "pi_id"
  let _sub ← dictGet fields "sub_id"
  let _date ← dictGet fields "date"
  let _noon ← dictGet fields "before_noon"
  .error (.nameError "new_sub_label")

/-! ### Tagging (run.py lines 210-213) -/

/-- run.py lines 211-213: `if tag not in acquisition.tags:
acquisition.add_tag(tag)`. -/
def tag_acquisition (tags : List String) (tag : String) : List String :=
  if tag ∈ tags then tags else tags ++ [tag]

/-! ### The workflow controller (run.py `main`, lines 161-226)

`main` is embedded as a function of an explicit environment: the triggering
acquisition's tags, the header, the catalog (list of existing container
paths), the random staging label, the abstract outcome of the two polling
waits and the per-record move results.  The `__main__` block (lines 215-226)
catches any `Exception` (but not `SystemExit`) and maps it to `status = 1`;
a normal return of `main` gives `sys.exit(None)`, i.e. exit code 0; and
`sys.exit(-1)` inside the loops becomes process exit code `(-1) mod 256`. -/

/-- Process exit code produced by Python `sys.exit(c)` for an integer
argument. -/
def pyExitCode (c : Int) : Nat :=
  (c % 256).toNat

/-- Observable calls `main` makes against the catalog, in order. -/
inductive Event
  | deleteExisting (path : String)
  | copyTo (path : String)
  | movedRecords (n : Nat)
  | deleteStaging (path : String)
  | reconcileWait
  | raisedNameError (v : String)
  | renamed (label : String)
  | taggedAcq
deriving DecidableEq, Repr

/-- How the process ends: with an exit code, or never (an infinite loop). -/
inductive ExitOut
  | exited (code : Nat)
  | hangs
deriving DecidableEq, Repr

/-- Environment of one run: everything `main` reads from the gear context
and the remote catalog. -/
structure Env where
  origTags : List String
  site : String
  classified : Bool
  hdr : DcmHdr
  containers : List String
  tmpLabel : String
  copyOutcome : LoopOutcome
  moveResults : List (List UpdResult)
  destSessions : List SessionRec
  copiedClassified : Bool
  copiedHdr : DcmHdr

/-- Final observable state of one run. -/
structure MainRes where
  exit : ExitOut
  containers : List String
  tags : List String
  events : List Event
deriving DecidableEq, Repr

/-- run.py lines 168-176: the owner key used for routing (`get_hdr_fields`
returns `some` exactly when the file is classified). -/
def main_pi_id (env : Env) : String :=
  if env.classified then normalize_pi env.hdr.pi_id else "other"

/-- run.py line 179: `pi_project_path = os.path.join(site, pi_id)`. -/
def main_pi_path (env : Env) : String :=
  env.site ++ "/" ++ main_pi_id env

/-- run.py lines 161-226.  If `site/pi_id` exists (lines 180-187): smart-copy
to the staging project `tmp/<random label>` with
`delete_existing_project=True`, wait for the job, move the sessions, delete
the staging project, and only then (line 194) run the reconciliation wait,
the rename step and the tagging.  If the lookup of `site/pi_id` raises
(lines 188-191): smart-copy straight to `site/pi_id`, wait for the job, and
fall through to line 194 where `pi_project` was never bound (`NameError`,
caught by the top-level handler as `status = 1`). -/
def run_main (env : Env) : MainRes :=
  let pid := main_pi_id env
  let piPath := main_pi_path env
  if piPath ∈ env.containers then
    let tmpPath := "tmp/" ++ env.tmpLabel
    let res := resolveDelete env.containers tmpPath
    let baseEvents := res.1.map Event.deleteExisting ++ [Event.copyTo tmpPath]
    let afterCopy := tmpPath :: res.2
    match env.copyOutcome with
    | .jobFailed => ⟨.exited 1, afterCopy, env.origTags, baseEvents⟩
    | .timeout => ⟨.exited (pyExitCode (-1)), afterCopy, env.origTags, baseEvents⟩
    | .success =>
      let afterDel := afterCopy.erase tmpPath
      let ev2 := baseEvents ++
        [Event.movedRecords (mv_to_project env.moveResults).length,
         Event.deleteStaging tmpPath, Event.reconcileWait]
      match recon_outcome env.destSessions with
      | .hangs => ⟨.hangs, afterDel, env.origTags, ev2⟩
      | .exitTimeout => ⟨.exited (pyExitCode (-1)), afterDel, env.origTags, ev2⟩
      | .found =>
        match get_hdr_fields env.copiedClassified env.copiedHdr env.site with
        | none => ⟨.exited 1, afterDel, env.origTags, ev2⟩
        | some fields =>
          match rename_step fields with
          | .error _ => ⟨.exited 1, afterDel, env.origTags, ev2⟩
          | .ok lbl =>
            ⟨.exited 0, afterDel,
             tag_acquisition env.origTags ("smart-copy-" ++ pid),
             ev2 ++ [Event.renamed lbl, Event.taggedAcq]⟩
  else
    let res := resolveDelete env.containers piPath
    let baseEvents := res.1.map Event.deleteExisting ++ [Event.copyTo piPath]
    let afterCopy := piPath :: res.2
    match env.copyOutcome with
    | .jobFailed => ⟨.exited 1, afterCopy, env.origTags, baseEvents⟩
    | .timeout => ⟨.exited (pyExitCode (-1)), afterCopy, env.origTags, baseEvents⟩
    | .success =>
      ⟨.exited 1, afterCopy, env.origTags,
       baseEvents ++ [Event.raisedNameError "pi_project"]⟩

/-- Example run: destination `uci/smith` exists, the copy job succeeds, the
destination project has one session in which the copy never becomes
visible (the reconciliation wait times out). -/
def envC1 : Env :=
  { origTags := [], site := "uci", classified := true,
    hdr := ⟨"20240115", 93000, "smith", "001"⟩,
    containers := ["uci/smith"], tmpLabel := "abc",
    copyOutcome := .success, moveResults := [],
    destSessions := [⟨false⟩], copiedClassified := true,
    copiedHdr := ⟨"20240115", 93000, "smith", "001"⟩ }

/-- Example run: the unclassified file routes to `uci/other`, which exists,
and the randomly generated staging label `abc` collides with the
pre-existing container `tmp/abc`. -/
def envC6 : Env :=
  { origTags := [], site := "uci", classified := false,
    hdr := ⟨"", 0, "", ""⟩,
    containers := ["uci/other", "tmp/abc"], tmpLabel := "abc",
    copyOutcome := .jobFailed, moveResults := [],
    destSessions := [], copiedClassified := false,
    copiedHdr := ⟨"", 0, "", ""⟩ }

/-- Example run: no container exists at `uci/smith`, so `main` takes the
create-new-destination branch, and the copy job completes. -/
def envC10 : Env :=
  { origTags := ["existing-tag"], site := "uci", classified := true,
    hdr := ⟨"20240115", 93000, "smith", "001"⟩,
    containers := [], tmpLabel := "abc",
    copyOutcome := .success, moveResults := [],
    destSessions := [], copiedClassified := true,
    copiedHdr := ⟨"20240115", 93000, "smith", "001"⟩ }

/-! ## Helper lemmas -/

theorem labelsMaxLen_le {l : List String} {s : String} (h : s ∈ l) :
    s.length ≤ labelsMaxLen l := by
  induction l with
  | nil => cases h
  | cons a t ih =>
    rcases List.mem_cons.1 h with rfl | h'
    · exact Nat.le_max_left _ _ |>.trans_eq rfl
    · exact (ih h').trans (Nat.le_max_right _ _)

theorem resolveLabelGo_not_mem (existing : List String) :
    ∀ fuel label, labelsMaxLen existing < label.length + 2 * fuel →
      resolveLabelGo fuel existing label ∉ existing := by
  intro fuel
  induction fuel with
  | zero =>
    intro label h hmem
    simp only [resolveLabelGo] at hmem
    have := labelsMaxLen_le hmem
    omega
  | succ n ih =>
    intro label h
    by_cases hm : label ∈ existing
    · simp only [resolveLabelGo, if_pos hm]
      apply ih
      have h1 : (label ++ "_1").length = label.length + "_1".length :=
        String.length_append _ _
      have h2 : ("_1" : String).length = 2 := rfl
      omega
    · simp only [resolveLabelGo, if_neg hm]
      exact hm

theorem resolveLabel_not_mem (existing : List String) (label : String) :
    resolveLabel existing label ∉ existing := by
  apply resolveLabelGo_not_mem
  omega

theorem resolveLabelGo_shape (existing : List String) :
    ∀ fuel label, ∃ k, resolveLabelGo fuel existing label = label ++ rep1 k := by
  intro fuel
  induction fuel with
  | zero =>
    intro label
    exact ⟨0, by simp only [resolveLabelGo, rep1, String.append_empty]⟩
  | succ n ih =>
    intro label
    by_cases hm : label ∈ existing
    · obtain ⟨k, hk⟩ := ih (label ++ "_1")
      refine ⟨k + 1, ?_⟩
      simp only [resolveLabelGo, if_pos hm, hk, rep1]
      rw [String.append_assoc]
    · exact ⟨0, by simp only [resolveLabelGo, if_neg hm, rep1, String.append_empty]⟩

theorem resolveLabelGo_fuel_stable (existing : List String) :
    ∀ fuel label, labelsMaxLen existing < label.length + 2 * fuel →
      resolveLabelGo (fuel + 1) existing label = resolveLabelGo fuel existing label := by
  intro fuel
  induction fuel with
  | zero =>
    intro label h
    have hnm : label ∉ existing := fun hmem => by
      have := labelsMaxLen_le hmem; omega
    simp only [resolveLabelGo, if_neg hnm]
  | succ n ih =>
    intro label h
    by_cases hm : label ∈ existing
    · simp only [resolveLabelGo, if_pos hm]
      apply ih
      have h1 : (label ++ "_1").length = label.length + "_1".length :=
        String.length_append _ _
      have h2 : ("_1" : String).length = 2 := rfl
      omega
    · simp only [resolveLabelGo, if_neg hm]

theorem resolveDeleteGo_not_mem :
    ∀ fuel (existing : List String) path, existing.length < fuel →
      path ∉ (resolveDeleteGo fuel existing path).2 := by
  intro fuel
  induction fuel with
  | zero => intro ex p h; omega
  | succ n ih =>
    intro ex p h
    by_cases hm : p ∈ ex
    · simp only [resolveDeleteGo, if_pos hm]
      apply ih
      have := List.length_erase_of_mem hm
      have hpos : 0 < ex.length := List.length_pos_of_mem hm
      omega
    · simp only [resolveDeleteGo, if_neg hm]
      exact hm

theorem resolveDeleteGo_deleted (fuel : Nat) (existing : List String)
    (path : String) (h : existing.length < fuel) (hm : path ∈ existing) :
    path ∈ (resolveDeleteGo fuel existing path).1 := by
  cases fuel with
  | zero => omega
  | succ n => simp only [resolveDeleteGo, if_pos hm]; exact List.mem_cons_self _ _

theorem mv_session_eq_map (l : List UpdResult) : mv_session l = l.map mv_acq := by
  induction l with
  | nil => rfl
  | cons r rest ih => simp [mv_session, ih]

theorem check_smartcopy_loop_all_running (f : Nat → CopyStatus)
    (h : ∀ j, f j = CopyStatus.running) :
    ∀ fuel i, check_smartcopy_loop f i fuel = .timeout := by
  intro fuel
  induction fuel with
  | zero => intro i; simp [check_smartcopy_loop, h i, check_smartcopy_job_complete]
  | succ n ih =>
    intro i
    simp [check_smartcopy_loop, h i, check_smartcopy_job_complete, ih (i + 1)]

theorem check_smartcopy_loop_completed (f : Nat → CopyStatus) :
    ∀ k i fuel, k ≤ fuel → (∀ j, j < k → f (i + j) = CopyStatus.running) →
      f (i + k) = CopyStatus.completed →
      check_smartcopy_loop f i fuel = .success := by
  intro k
  induction k with
  | zero =>
    intro i fuel _ _ hc
    simp only [Nat.add_zero] at hc
    cases fuel <;>
      simp [check_smartcopy_loop, hc, check_smartcopy_job_complete]
  | succ n ih =>
    intro i fuel hk hrun hc
    have h0 : f i = CopyStatus.running := by
      have := hrun 0 (Nat.succ_pos n)
      simpa using this
    cases fuel with
    | zero => omega
    | succ m =>
      simp only [check_smartcopy_loop, h0, check_smartcopy_job_complete]
      apply ih (i + 1) m (by omega)
      · intro j hj
        have := hrun (j + 1) (by omega)
        have harg : i + (j + 1) = i + 1 + j := by omega
        rwa [harg] at this
      · have harg : i + (n + 1) = i + 1 + n := by omega
        rwa [harg] at hc

theorem check_smartcopy_loop_failed (f : Nat → CopyStatus) :
    ∀ k i fuel, k ≤ fuel → (∀ j, j < k → f (i + j) = CopyStatus.running) →
      f (i + k) = CopyStatus.failed →
      check_smartcopy_loop f i fuel = .jobFailed := by
  intro k
  induction k with
  | zero =>
    intro i fuel _ _ hc
    simp only [Nat.add_zero] at hc
    cases fuel <;>
      simp [check_smartcopy_loop, hc, check_smartcopy_job_complete]
  | succ n ih =>
    intro i fuel hk hrun hc
    have h0 : f i = CopyStatus.running := by
      have := hrun 0 (Nat.succ_pos n)
      simpa using this
    cases fuel with
    | zero => omega
    | succ m =>
      simp only [check_smartcopy_loop, h0, check_smartcopy_job_complete]
      apply ih (i + 1) m (by omega)
      · intro j hj
        have := hrun (j + 1) (by omega)
        have harg : i + (j + 1) = i + 1 + j := by omega
        rwa [harg] at this
      · have harg : i + (n + 1) = i + 1 + n := by omega
        rwa [harg] at hc

theorem asciiToLower_of_not_alnum {c : Char} (h : asciiIsAlnum c = false) :
    asciiToLower c = c := by
  simp only [asciiIsAlnum, Bool.or_eq_false_iff, decide_eq_false_iff_not] at h
  simp only [asciiToLower, if_neg h.1.1]

/-! ## Claim theorems -/

/-- C3 counterexample: with existing containers `a` and `a_1` and candidate
label `a`, the `smart_copy` collision loop (run.py line 62) produces
`a_1_1`, not the strictly incremented suffix `a_2` the claim describes. -/
theorem c3_counterexample :
    resolveLabel ["a", "a_1"] "a" = "a_1_1" ∧
    "a_1_1" ∉ (["a", "a_1"] : List String) ∧
    "a_1_1" ≠ "a_2" := by
  refine ⟨by decide, by decide, by decide⟩

/-- C3 (amended): with `delete_existing_project=False`, when the candidate
label is taken the `smart_copy` loop never returns a name already in use and
never the colliding label itself; it returns the label with one or more
copies of the literal suffix `_1` appended (`a`, `a_1`, `a_1_1`, ...), not a
strictly incrementing numeric counter. -/
theorem c3_suffix_resolution (existing : List String) (label : String)
    (h : label ∈ existing) :
    resolveLabel existing label ∉ existing ∧
    resolveLabel existing label ≠ label ∧
    ∃ k, 1 ≤ k ∧ resolveLabel existing label = label ++ rep1 k := by
  have hnm := resolveLabel_not_mem existing label
  refine ⟨hnm, fun he => hnm (by rw [he]; exact h), ?_⟩
  obtain ⟨k, hk⟩ := resolveLabelGo_shape existing (labelsMaxLen existing + 1) label
  match k, hk with
  | 0, hk =>
    exfalso
    rw [show resolveLabel existing label =
        resolveLabelGo (labelsMaxLen existing + 1) existing label from rfl,
      hk] at hnm
    rw [show rep1 0 = "" from rfl, String.append_empty] at hnm
    exact hnm h
  | k + 1, hk => exact ⟨k + 1, by omega, hk⟩

/-- C3 witness: concrete instance of the amended collision-resolution
theorem. -/
theorem c3_suffix_resolution_witness :
    "a" ∈ (["a"] : List String) ∧
    (resolveLabel ["a"] "a" ∉ (["a"] : List String) ∧
     resolveLabel ["a"] "a" ≠ "a" ∧
     ∃ k, 1 ≤ k ∧ resolveLabel ["a"] "a" = "a" ++ rep1 k) :=
  ⟨by decide, c3_suffix_resolution ["a"] "a" (by decide)⟩

/-- C4: the reconciliation wait of `check_copied_acq_exists` (run.py lines
133-142) does NOT terminate on every destination state.  Because the timeout
test sits inside the `for session` loop, when the destination project has no
sessions the body falls through at every iteration — whatever the clock says
— so the `while True` loop runs forever; with at least one (non-matching)
session the timeout branch is reachable. -/
theorem c4_empty_dest_never_terminates :
    (∀ timedOutAt : Nat → Bool,
      recon_loop_runs_forever (fun _ => []) timedOutAt) ∧
    (∀ b, check_copied_body [] b = .continueLoop) ∧
    check_copied_body [⟨false⟩] true = .exitTimeout := by
  exact ⟨fun _ _ => rfl, fun _ => rfl, by decide⟩

/-- C7: identity normalization.  If the parsed owner token contains any
non-alphanumeric character then `normalize_pi` (run.py lines 170-176) yields
the sentinel `"other"`; and the normalization depends on the owner token
only through its case-folded form, i.e. case-folding happens before the
alphanumeric check. -/
theorem c7_identity_normalized :
    (∀ pi_raw : String, (∃ c ∈ pi_raw.data, asciiIsAlnum c = false) →
      normalize_pi pi_raw = "other") ∧
    (∀ s t : String, casefold s = casefold t → normalize_pi s = normalize_pi t) := by
  constructor
  · rintro s ⟨c, hc, hna⟩
    have hlow : asciiToLower c = c := asciiToLower_of_not_alnum hna
    have hcm : c ∈ (casefold s).data := by
      simp only [casefold]
      exact List.mem_map.2 ⟨c, hc, hlow⟩
    have hall : (casefold s).data.all asciiIsAlnum = false :=
      List.all_eq_false.2 ⟨c, hcm, by simp [hna]⟩
    have hpy : py_isalnum (casefold s) = false := by
      simp [py_isalnum, hall]
    simp [normalize_pi, hpy]
  · intro s t h
    simp only [normalize_pi, h]

/-- C7 witness: the owner token `Sm!th` contains a non-alphanumeric
character and resolves to `other`. -/
theorem c7_identity_normalized_witness :
    (∃ c ∈ ("Sm!th" : String).data, asciiIsAlnum c = false) ∧
    normalize_pi "Sm!th" = "other" :=
  ⟨by decide, c7_identity_normalized.1 "Sm!th" (by decide)⟩

/-- C8: the move loop of `mv_to_project` (run.py lines 117-131) classifies
every acquisition of every session — a 422 conflict is logged and skipped,
any other API error is logged — and never aborts: the action list covers the
whole input, in order. -/
theorem c8_move_loop_never_aborts :
    (∀ sessions : List (List UpdResult),
      mv_to_project sessions = sessions.flatten.map mv_acq) ∧
    mv_acq .ok = .moved ∧
    mv_acq (.apiErr 422) = .conflictSkipped ∧
    (∀ s, s ≠ 422 → mv_acq (.apiErr s) = .errorLogged) ∧
    (∀ sessions : List (List UpdResult),
      (mv_to_project sessions).length = sessions.flatten.length) := by
  have hmap : ∀ sessions : List (List UpdResult),
      mv_to_project sessions = sessions.flatten.map mv_acq := by
    intro sessions
    induction sessions with
    | nil => rfl
    | cons s rest ih => simp [mv_to_project, mv_session_eq_map, ih]
  refine ⟨hmap, rfl, rfl, ?_, ?_⟩
  · intro s hs
    simp [mv_acq, hs]
  · intro sessions
    rw [hmap, List.length_map]

/-- C8 witness: a non-422 error is logged (not skipped as a conflict) and a
mixed batch is classified record by record. -/
theorem c8_move_loop_never_aborts_witness :
    (500 ≠ 422) ∧ mv_acq (.apiErr 500) = .errorLogged ∧
    mv_to_project [[.ok, .apiErr 422], [.apiErr 500]] =
      ([[.ok, .apiErr 422], [.apiErr 500]] :
        List (List UpdResult)).flatten.map mv_acq :=
  ⟨by decide, c8_move_loop_never_aborts.2.2.2.1 500 (by decide),
   c8_move_loop_never_aborts.1 _⟩

/-- C9: attaching the processed tag (run.py lines 211-213) is idempotent —
the second application finds the tag present and is a no-op. -/
theorem c9_tagging_idempotent (tags : List String) (tag : String) :
    tag_acquisition (tag_acquisition tags tag) tag = tag_acquisition tags tag := by
  by_cases h : tag ∈ tags
  · simp [tag_acquisition, h]
  · simp [tag_acquisition, h]

/-- C2: the rename step of run.py lines 193-208 never completes.  For every
classified header, the dict built by `get_hdr_fields` keys the subject token
as `'sub-id'`, while line 199 subscripts `'sub_id'`, so the step raises
`KeyError('sub_id')`; and on no input does the step ever return a label (the
truncation on line 205 reads the never-assigned `new_sub_label`, and the
subject update on line 208 is commented out). -/
theorem c2_rename_always_raises :
    (∀ (d : DcmHdr) (site : String) (fields : List (String × HdrVal)),
      get_hdr_fields true d site = some fields →
      rename_step fields = .error (.keyError "sub_id")) ∧
    (∀ (fields : List (String × HdrVal)) (lbl : String),
      rename_step fields ≠ .ok lbl) := by
  constructor
  · intro d site fields h
    simp only [get_hdr_fields, if_pos, Option.some.injEq] at h
    subst h
    rfl
  · intro fields lbl h
    cases h1 : fields.lookup "pi_id" <;>
      cases h2 : fields.lookup "sub_id" <;>
        cases h3 : fields.lookup "date" <;>
          cases h4 : fields.lookup "before_noon" <;>
            simp [rename_step, dictGet, h1, h2, h3, h4, bind, Except.bind] at h

/-- C2 witness: the spec's scenario header (`20240115`, `093000`,
owner `smith`, subject `001` at site `uci`) reaches the rename step and
raises `KeyError('sub_id')`. -/
theorem c2_rename_always_raises_witness :
    get_hdr_fields true ⟨"20240115", 93000, "smith", "001"⟩ "uci" =
      some [("site", .vStr "uci"), ("date", .vDate "20240115"),
            ("before_noon", .vBool true), ("pi_id", .vStr "smith"),
            ("sub-id", .vStr "001")] ∧
    rename_step [("site", .vStr "uci"), ("date", .vDate "20240115"),
            ("before_noon", .vBool true), ("pi_id", .vStr "smith"),
            ("sub-id", .vStr "001")] = .error (.keyError "sub_id") :=
  ⟨rfl, c2_rename_always_raises.1 ⟨"20240115", 93000, "smith", "001"⟩ "uci" _ rfl⟩

/-- C5: classification of the copy-job wait (run.py lines 89-115, 180-192).
A job observed `completed` after a prefix of `running` polls (within the
timeout budget) yields success; a job observed `failed` raises, which the
top-level handler maps to exit status 1; a job that never leaves `running`
times out, and `main` then exits via `sys.exit(-1)`, i.e. process exit code
255 — distinguishable from both 1 and 0 — without ever issuing the
staging-to-destination move. -/
theorem c5_copy_wait_classification :
    (∀ (f : Nat → CopyStatus) i fuel, (∀ j, f j = CopyStatus.running) →
      check_smartcopy_loop f i fuel = .timeout) ∧
    (∀ (f : Nat → CopyStatus) i fuel k, k ≤ fuel →
      (∀ j, j < k → f (i + j) = CopyStatus.running) →
      f (i + k) = CopyStatus.completed →
      check_smartcopy_loop f i fuel = .success) ∧
    (∀ (f : Nat → CopyStatus) i fuel k, k ≤ fuel →
      (∀ j, j < k → f (i + j) = CopyStatus.running) →
      f (i + k) = CopyStatus.failed →
      check_smartcopy_loop f i fuel = .jobFailed) ∧
    pyExitCode (-1) = 255 ∧ (255 : Nat) ≠ 1 ∧ (255 : Nat) ≠ 0 ∧
    (∀ env : Env, env.copyOutcome = .timeout →
      (∀ n, Event.movedRecords n ∉ (run_main env).events) ∧
      (run_main env).exit = .exited 255) ∧
    (∀ env : Env, env.copyOutcome = .jobFailed →
      (run_main env).exit = .exited 1) := by
  refine ⟨fun f i fuel h => check_smartcopy_loop_all_running f h fuel i,
    fun f i fuel k hk hrun hc => check_smartcopy_loop_completed f k i fuel hk hrun hc,
    fun f i fuel k hk hrun hc => check_smartcopy_loop_failed f k i fuel hk hrun hc,
    by decide, by decide, by decide, ?_, ?_⟩
  · intro env h
    by_cases hm : main_pi_path env ∈ env.containers <;>
      simp [run_main, h, hm, pyExitCode]
  · intro env h
    by_cases hm : main_pi_path env ∈ env.containers <;>
      simp [run_main, h, hm]

/-- C5 witness: a trace that stays `running` forever times out; one that
completes at the second poll succeeds; a failing first poll fails the job. -/
theorem c5_copy_wait_classification_witness :
    check_smartcopy_loop (fun _ => CopyStatus.running) 0 2 = .timeout ∧
    check_smartcopy_loop
      (fun j => if j < 1 then CopyStatus.running else CopyStatus.completed) 0 2 =
      .success ∧
    check_smartcopy_loop (fun _ => CopyStatus.failed) 0 2 = .jobFailed :=
  ⟨c5_copy_wait_classification.1 _ 0 2 (fun _ => rfl),
   c5_copy_wait_classification.2.1 _ 0 2 1 (by decide)
     (fun j hj => by interval_cases j <;> rfl) (by decide),
   c5_copy_wait_classification.2.2.1 _ 0 2 0 (by decide)
     (fun j hj => by omega) (by decide)⟩

/-- C1: when the reconciliation wait times out, the run does exit with the
non-zero code 255 (`sys.exit(-1)`), but the staging container no longer
exists at that point: `main` deletes `tmp/<label>` on line 187, BEFORE the
reconciliation wait on line 194, so the deletion is never conditioned on
the wait succeeding. -/
theorem c1_staging_deleted_before_wait (env : Env)
    (h1 : main_pi_path env ∈ env.containers)
    (h2 : env.copyOutcome = .success)
    (h3 : recon_outcome env.destSessions = .exitTimeout) :
    (run_main env).exit = .exited 255 ∧
    ("tmp/" ++ env.tmpLabel) ∉ (run_main env).containers ∧
    Event.deleteStaging ("tmp/" ++ env.tmpLabel) ∈ (run_main env).events := by
  have hnm : ("tmp/" ++ env.tmpLabel) ∉
      (resolveDelete env.containers ("tmp/" ++ env.tmpLabel)).2 :=
    resolveDeleteGo_not_mem _ _ _ (by omega)
  refine ⟨?_, ?_, ?_⟩ <;>
    simp [run_main, h1, h2, h3, pyExitCode, List.erase_cons_head, hnm]

/-- C1 witness: the concrete run `envC1` (existing destination, successful
copy, reconciliation timeout) exits 255 with the staging container already
gone. -/
theorem c1_staging_deleted_before_wait_witness :
    main_pi_path envC1 ∈ envC1.containers ∧
    envC1.copyOutcome = .success ∧
    recon_outcome envC1.destSessions = .exitTimeout ∧
    ((run_main envC1).exit = .exited 255 ∧
     ("tmp/" ++ envC1.tmpLabel) ∉ (run_main envC1).containers ∧
     Event.deleteStaging ("tmp/" ++ envC1.tmpLabel) ∈ (run_main envC1).events) :=
  ⟨by decide, rfl, by decide,
   c1_staging_deleted_before_wait envC1 (by decide) rfl (by decide)⟩

/-- C6 counterexample: in the concrete run `envC6` the staging label `abc`
collides with the pre-existing container `tmp/abc`; `smart_copy` is called
with `delete_existing_project=True` (run.py line 183), so the pre-existing
container is deleted and the very same label is used — no new candidate is
generated. -/
theorem c6_counterexample :
    "tmp/abc" ∈ envC6.containers ∧
    Event.deleteExisting "tmp/abc" ∈ (run_main envC6).events ∧
    Event.copyTo "tmp/abc" ∈ (run_main envC6).events := by
  refine ⟨by decide, by decide, by decide⟩

/-- C6 (amended): the staging label IS checked against existing containers
via `lookup`, but on a collision the pre-existing container at the staging
path is deleted (replace mode) and the same label is reused; the copy only
ever targets the originally generated label. -/
theorem run_main_events_shape (env : Env)
    (h1 : main_pi_path env ∈ env.containers) :
    ∃ tail, (run_main env).events =
      ((resolveDelete env.containers ("tmp/" ++ env.tmpLabel)).1.map
          Event.deleteExisting ++
        [Event.copyTo ("tmp/" ++ env.tmpLabel)]) ++ tail ∧
      ∀ p, Event.copyTo p ∉ tail := by
  cases hc : env.copyOutcome
  case jobFailed => exact ⟨[], by simp [run_main, h1, hc], by simp⟩
  case timeout => exact ⟨[], by simp [run_main, h1, hc], by simp⟩
  case success =>
    cases hro : recon_outcome env.destSessions
    case hangs =>
      exact ⟨[Event.movedRecords (mv_to_project env.moveResults).length,
        Event.deleteStaging ("tmp/" ++ env.tmpLabel), Event.reconcileWait],
        by simp [run_main, h1, hc, hro], by simp⟩
    case exitTimeout =>
      exact ⟨[Event.movedRecords (mv_to_project env.moveResults).length,
        Event.deleteStaging ("tmp/" ++ env.tmpLabel), Event.reconcileWait],
        by simp [run_main, h1, hc, hro], by simp⟩
    case found =>
      cases hg : get_hdr_fields env.copiedClassified env.copiedHdr env.site
      case none =>
        exact ⟨[Event.movedRecords (mv_to_project env.moveResults).length,
          Event.deleteStaging ("tmp/" ++ env.tmpLabel), Event.reconcileWait],
          by simp [run_main, h1, hc, hro, hg], by simp⟩
      case some fields =>
        cases hr : rename_step fields
        case error e =>
          exact ⟨[Event.movedRecords (mv_to_project env.moveResults).length,
            Event.deleteStaging ("tmp/" ++ env.tmpLabel), Event.reconcileWait],
            by simp [run_main, h1, hc, hro, hg, hr], by simp⟩
        case ok lbl =>
          exact ⟨[Event.movedRecords (mv_to_project env.moveResults).length,
            Event.deleteStaging ("tmp/" ++ env.tmpLabel), Event.reconcileWait,
            Event.renamed lbl, Event.taggedAcq],
            by simp [run_main, h1, hc, hro, hg, hr], by simp⟩

theorem c6_staging_collision_replaces (env : Env)
    (h1 : main_pi_path env ∈ env.containers)
    (h2 : ("tmp/" ++ env.tmpLabel) ∈ env.containers) :
    Event.deleteExisting ("tmp/" ++ env.tmpLabel) ∈ (run_main env).events ∧
    Event.copyTo ("tmp/" ++ env.tmpLabel) ∈ (run_main env).events ∧
    (∀ p, Event.copyTo p ∈ (run_main env).events → p = "tmp/" ++ env.tmpLabel) := by
  have hdel : ("tmp/" ++ env.tmpLabel) ∈
      (resolveDelete env.containers ("tmp/" ++ env.tmpLabel)).1 :=
    resolveDeleteGo_deleted _ _ _ (by omega) h2
  obtain ⟨tail, hev, htail⟩ := run_main_events_shape env h1
  refine ⟨?_, ?_, ?_⟩
  · rw [hev]
    exact List.mem_append_left _
      (List.mem_append_left _ (List.mem_map_of_mem _ hdel))
  · rw [hev]
    exact List.mem_append_left _
      (List.mem_append_right _ (List.mem_singleton.2 rfl))
  · intro p hp
    rw [hev] at hp
    rcases List.mem_append.1 hp with hbase | htl
    · rcases List.mem_append.1 hbase with hmap | hsingle
      · exact absurd hmap (by simp)
      · simpa using hsingle
    · exact absurd htl (htail p)

/-- C6 witness: concrete instance of the amended collision behaviour on
`envC6`. -/
theorem c6_staging_collision_replaces_witness :
    main_pi_path envC6 ∈ envC6.containers ∧
    ("tmp/" ++ envC6.tmpLabel) ∈ envC6.containers ∧
    Event.deleteExisting ("tmp/" ++ envC6.tmpLabel) ∈ (run_main envC6).events ∧
    Event.copyTo ("tmp/" ++ envC6.tmpLabel) ∈ (run_main envC6).events :=
  ⟨by decide, by decide,
   (c6_staging_collision_replaces envC6 (by decide) (by decide)).1,
   (c6_staging_collision_replaces envC6 (by decide) (by decide)).2.1⟩

/-- C10: in every run whose destination lookup fails (no container at
`site/pi_id`), the rename and tagging steps are never reached and the
original record's tags are unchanged; when the copy job completes, line 194
references the unbound `pi_project` (`NameError`), so the run terminates
through the top-level handler with the generic failure status 1. -/
theorem c10_unbound_pi_project (env : Env)
    (h : main_pi_path env ∉ env.containers) :
    (run_main env).tags = env.origTags ∧
    Event.taggedAcq ∉ (run_main env).events ∧
    (∀ lbl, Event.renamed lbl ∉ (run_main env).events) ∧
    (env.copyOutcome = .success →
      (run_main env).exit = .exited 1 ∧
      Event.raisedNameError "pi_project" ∈ (run_main env).events) := by
  cases hc : env.copyOutcome <;> simp [run_main, h, hc]

/-- C10 witness: the concrete run `envC10` (empty catalog, successful copy)
exits 1 through the handler with the original tags untouched. -/
theorem c10_unbound_pi_project_witness :
    main_pi_path envC10 ∉ envC10.containers ∧
    (run_main envC10).tags = envC10.origTags ∧
    Event.taggedAcq ∉ (run_main envC10).events ∧
    ((run_main envC10).exit = .exited 1 ∧
     Event.raisedNameError "pi_project" ∈ (run_main envC10).events) :=
  ⟨by decide,
   (c10_unbound_pi_project envC10 (by decide)).1,
   (c10_unbound_pi_project envC10 (by decide)).2.1,
   (c10_unbound_pi_project envC10 (by decide)).2.2.2 rfl⟩
